import Mathlib

/-!
Verification of the skiboot OpenCAPI NPU bring-up and runtime-control core
(src/hw/npu2-opencapi.c) and the spinlock core (src/core/lock.c), against
the natural-language specification.

Machine integers are modelled as `Nat` restricted to 64 bits where needed.
Registers named in the PPC big-endian bit convention are handled through
`ppcBit` / `ppcBitmask` / `getfield` / `setfield`, mirroring the C macros
`PPC_BIT`, `PPC_BITMASK`, `GETFIELD` and `SETFIELD`.

Register-field constants that live in headers not shipped with the sources
(npu2-regs.h, npu2.h, opal-api.h) are modelled from the spec; each such
definition carries a doc comment starting with `Modelled from the spec:`.
-/

/-- All-ones 64-bit word, used for complementing a mask (C `~m` on uint64). -/
def ones64 : Nat := 2 ^ 64 - 1

/-- C macro `PPC_BIT(a)`: big-endian bit `a` of a 64-bit word, i.e. `1 <<< (63 - a)`. -/
def ppcBit (a : Nat) : Nat := 2 ^ (63 - a)

/-- C macro `PPC_BITMASK(bs, be)`: big-endian bits `bs..be` of a 64-bit word
(`bs ≤ be ≤ 63`), i.e. `2 ^ (64 - bs) - 2 ^ (63 - be)`. -/
def ppcBitmask (bs be : Nat) : Nat := 2 ^ (64 - bs) - 2 ^ (63 - be)

/-- Fuel-bounded count of trailing zero bits, the C `MASK_TO_LSH` helper
(`__builtin_ctzl`); masks are at most 64 bits wide so fuel 64 suffices. -/
def maskToLshAux : Nat → Nat → Nat
  | 0, _ => 0
  | fuel + 1, m => if m % 2 = 1 ∨ m = 0 then 0 else maskToLshAux fuel (m / 2) + 1

/-- Shift distance of the least significant set bit of a mask (C `MASK_TO_LSH`). -/
def maskToLsh (m : Nat) : Nat := maskToLshAux 64 m

/-- C macro `GETFIELD(m, v)`: extract the field under mask `m` from word `v`. -/
def getfield (m v : Nat) : Nat := (v &&& m) >>> maskToLsh m

/-- C macro `SETFIELD(m, v, f)`: replace the field under mask `m` in word `v` by `f`. -/
def setfield (m v f : Nat) : Nat :=
  (v &&& (ones64 ^^^ m)) ||| ((f <<< maskToLsh m) &&& m)

/-- OPAL return codes used by this file (values taken from opal-api.h, which is
not under src/; only their identity matters, so they are an enumeration). -/
inductive OpalResult where
  | success
  | parameter
  | unsupported
  | busy
  | hardware
deriving DecidableEq, Repr

/-- NPU2 stack selector (`NPU2_STACK_STCK_1` / `NPU2_STACK_STCK_2`). -/
inductive Stack where
  | STCK_1
  | STCK_2
deriving DecidableEq, Repr

/-- NPU2 upper-stack selector (`NPU2_STACK_STCK_1U` / `NPU2_STACK_STCK_2U`). -/
inductive StackU where
  | STCK_1U
  | STCK_2U
deriving DecidableEq, Repr

/-- NPU2 OTL block selector (`NPU2_BLOCK_OTL0` / `NPU2_BLOCK_OTL1`). -/
inductive Block where
  | OTL0
  | OTL1
deriving DecidableEq, Repr

/-- ODL status register names (the XSCOM addresses live in a header not under
src/; the identity of the register is what the code selects on). -/
inductive OdlStatusReg where
  | OB0_ODL0_STATUS
  | OB0_ODL1_STATUS
  | OB3_ODL0_STATUS
  | OB3_ODL1_STATUS
deriving DecidableEq, Repr

/-- ODL config register names. -/
inductive OdlConfigReg where
  | OB0_ODL0_CONFIG
  | OB0_ODL1_CONFIG
  | OB3_ODL0_CONFIG
  | OB3_ODL1_CONFIG
deriving DecidableEq, Repr

/-- OBUS PHY-config register names (`OBUS_LL0_IOOL_PHY_CONFIG` /
`OBUS_LL3_IOOL_PHY_CONFIG`). -/
inductive PhyConfigReg where
  | OBUS_LL0
  | OBUS_LL3
deriving DecidableEq, Repr

/-- `index_to_stack` (npu2-opencapi.c lines 70-83); `none` models the fatal
`assert(false)` on any index outside 2..5. -/
def indexToStack : Nat → Option Stack
  | 2 => some .STCK_1
  | 3 => some .STCK_1
  | 4 => some .STCK_2
  | 5 => some .STCK_2
  | _ => none

/-- `index_to_stacku` (lines 85-98). -/
def indexToStacku : Nat → Option StackU
  | 2 => some .STCK_1U
  | 3 => some .STCK_1U
  | 4 => some .STCK_2U
  | 5 => some .STCK_2U
  | _ => none

/-- `index_to_block` (lines 100-113). -/
def indexToBlock : Nat → Option Block
  | 2 => some .OTL0
  | 3 => some .OTL1
  | 4 => some .OTL0
  | 5 => some .OTL1
  | _ => none

/-- Status-register selection in `get_odl_status` (lines 115-135): note the
ODL numbering swap on stack 2 (index 4 uses ODL1, index 5 uses ODL0). -/
def odlStatusRegOf : Nat → Option OdlStatusReg
  | 2 => some .OB0_ODL0_STATUS
  | 3 => some .OB0_ODL1_STATUS
  | 4 => some .OB3_ODL1_STATUS
  | 5 => some .OB3_ODL0_STATUS
  | _ => none

/-- Config-register selection in `odl_train` (lines 838-853), with the same
swap on stack 2. -/
def odlConfigRegOf : Nat → Option OdlConfigReg
  | 2 => some .OB0_ODL0_CONFIG
  | 3 => some .OB0_ODL1_CONFIG
  | 4 => some .OB3_ODL1_CONFIG
  | 5 => some .OB3_ODL0_CONFIG
  | _ => none

/-- PHY-config register selection in `disable_nvlink` / `enable_odl_phy_mux`
(lines 141-152 and 249-260). -/
def phyConfigRegOf : Nat → Option PhyConfigReg
  | 2 => some .OBUS_LL0
  | 3 => some .OBUS_LL0
  | 4 => some .OBUS_LL3
  | 5 => some .OBUS_LL3
  | _ => none

/-- `NPU_IRQ_LEVELS_XSL` (npu2-opencapi.c line 56). -/
def NPU_IRQ_LEVELS_XSL : Nat := 23

/-- The translation-fault IRQ number computed by `npu2_add_mmio_regs`
(lines 1143-1147): `irq_base + 23`, `+2` for upper-stack `STCK_2U`,
`+1` for block `OTL1`; `none` for indices where the brick algebra is
undefined. -/
def xslIrqNumber (irqBase index : Nat) : Option Nat :=
  match indexToStacku index, indexToBlock index with
  | some su, some b =>
      some (irqBase + NPU_IRQ_LEVELS_XSL
        + (if su = .STCK_2U then 2 else 0)
        + (if b = .OTL1 then 1 else 0))
  | _, _ => none

/- ===================== definitions for C1 (TL_SET) ===================== -/

/-- `TL_MAX_TEMPLATE` (npu2-opencapi.c line 58). -/
def TL_MAX_TEMPLATE : Nat := 63

/-- `TL_RATE_BUF_SIZE` (npu2-opencapi.c line 59). -/
def TL_RATE_BUF_SIZE : Nat := 32

/-- Modelled from the spec: `NPU2_OTL_CONFIG1_TX_TEMP1_EN` lives in
npu2-regs.h (not under src/); the enable bit for template i is `PPC_BIT(i)`,
as used by the set path of `opal_npu_tl_set` (`reg |= PPC_BIT(i)`). -/
def NPU2_OTL_CONFIG1_TX_TEMP1_EN : Nat := ppcBit 1

/-- Modelled from the spec: enable bit for template 2, `PPC_BIT(2)`
(npu2-regs.h is not under src/). -/
def NPU2_OTL_CONFIG1_TX_TEMP2_EN : Nat := ppcBit 2

/-- Modelled from the spec: enable bit for template 3, `PPC_BIT(3)`
(npu2-regs.h is not under src/). -/
def NPU2_OTL_CONFIG1_TX_TEMP3_EN : Nat := ppcBit 3

/-- `get_template_rate` (lines 1673-1688). The buffer is `char *`, so the
byte is sign-extended before the arithmetic right shift (`Int.fdiv` by
`2 ^ shift` matches the C arithmetic shift); the caller masks the result to
4 bits via `SETFIELD`. -/
def getTemplateRate (templ : Nat) (rate : List Nat) : Int :=
  let idx := (TL_MAX_TEMPLATE - templ) / 2
  let shift := 4 * (1 - (TL_MAX_TEMPLATE - templ) % 2)
  let b := rate.getD idx 0
  let sb : Int := if b < 128 then (b : Int) else (b : Int) - 256
  Int.fdiv sb (2 ^ shift)

/-- `is_template_supported` (lines 1690-1693). -/
def isTemplateSupported (templ capabilities : Nat) : Bool :=
  capabilities &&& (1 <<< templ) ≠ 0

/-- One iteration of the template loop of `opal_npu_tl_set` (lines 1735-1744):
for `i ≠ 0`, set `PPC_BIT(i)` when template `i` is advertised; always write the
4-bit rate for template `i` at big-endian bit position `8 + 4*i`. -/
def tlSetStep (capabilities : Nat) (rate : List Nat) (reg : Nat) (i : Nat) : Nat :=
  let reg1 := if i ≠ 0 ∧ isTemplateSupported i capabilities then reg ||| ppcBit i else reg
  let templRate := ((getTemplateRate i rate).emod (2 ^ 64)).toNat
  let pos := 8 + i * 4
  setfield (ppcBitmask pos (pos + 3)) reg1 templRate

/-- The OTL_CONFIG1 value programmed by `opal_npu_tl_set` (lines 1730-1744),
starting from the register's prior value `reg0`. Note the clear mask of line
1733-1734 is `TX_TEMP1_EN | TX_TEMP3_EN | TX_TEMP1_EN`, exactly as in the
source (`TX_TEMP1_EN` twice, `TX_TEMP2_EN` absent). -/
def tlSetReg (reg0 capabilities : Nat) (rate : List Nat) : Nat :=
  let cleared := reg0 &&& (ones64 ^^^
    (NPU2_OTL_CONFIG1_TX_TEMP1_EN ||| NPU2_OTL_CONFIG1_TX_TEMP3_EN |||
     NPU2_OTL_CONFIG1_TX_TEMP1_EN))
  (List.range 4).foldl (tlSetStep capabilities rate) cleared

/-- `opal_npu_tl_set` (lines 1695-1752) on a valid OpenCAPI PHB, as a function
of the prior OTL_CONFIG1 value; returns the result code and the value written
back, if any. -/
def opalNpuTlSet (reg0 capabilities : Nat) (rate : List Nat) (rateSz : Nat) :
    OpalResult × Option Nat :=
  if rateSz ≠ TL_RATE_BUF_SIZE then (.parameter, none)
  else if ¬isTemplateSupported 0 capabilities then (.parameter, none)
  else (.success, some (tlSetReg reg0 capabilities rate))

/- ===================== definitions for C2 (SET_PE) ===================== -/

/-- Modelled from the spec: `OPAL_MAP_PE` from opal-api.h (not under src/);
only its identity matters. -/
def OPAL_MAP_PE : Nat := 1

/-- Modelled from the spec: `OPAL_UNMAP_PE` from opal-api.h (not under src/). -/
def OPAL_UNMAP_PE : Nat := 0

/-- Modelled from the spec: `OpalPciBusAll` from opal-api.h (not under src/). -/
def OpalPciBusAll : Nat := 7

/-- Modelled from the spec: `OPAL_COMPARE_RID_DEVICE_NUMBER` from opal-api.h. -/
def OPAL_COMPARE_RID_DEVICE_NUMBER : Nat := 1

/-- Modelled from the spec: `OPAL_COMPARE_RID_FUNCTION_NUMBER` from opal-api.h. -/
def OPAL_COMPARE_RID_FUNCTION_NUMBER : Nat := 1

/-- Modelled from the spec: the fields of `MISC.BRICK{i}_BDF2PE_MAP0`
(`ENABLE | PE=... | BDF=...`); their bit layout is in npu2-regs.h (not under
src/), so the written value is modelled as a record of the three fields. -/
structure Bdf2PeMapVal where
  enable : Bool
  pe : Nat
  bdf : Nat
deriving DecidableEq, Repr

/-- `npu2_opencapi_set_pe` (lines 1086-1128). `maxPeNum` stands for
`NPU2_MAX_PE_NUM` (npu2.h, not under src/). `devBdfn` is `dev->bdfn` (fixed
at 0 by `npu2_opencapi_setup_device`, line 1330) and `devIndex` the brick
index; note line 1117 takes the BDF from the device, not from the `bdfn`
argument. Returns the result code, the write to
`MISC.BRICK{devIndex}_BDF2PE_MAP0` (if any), and the updated per-brick
`bdf2pe_cache`. -/
def npu2OpencapiSetPe (maxPeNum devBdfn devIndex : Nat)
    (cache : Nat → Option Bdf2PeMapVal)
    (peNum bdfn bcompare dcompare fcompare action : Nat) :
    OpalResult × Option (Nat × Bdf2PeMapVal) × (Nat → Option Bdf2PeMapVal) :=
  if action ≠ OPAL_MAP_PE ∧ action ≠ OPAL_UNMAP_PE then (.parameter, none, cache)
  else if peNum ≥ maxPeNum then (.parameter, none, cache)
  else if bdfn >>> 8 ≠ 0 then (.parameter, none, cache)
  else if bcompare ≠ OpalPciBusAll ∨ dcompare ≠ OPAL_COMPARE_RID_DEVICE_NUMBER ∨
      fcompare ≠ OPAL_COMPARE_RID_FUNCTION_NUMBER then (.unsupported, none, cache)
  else
    let val : Bdf2PeMapVal := ⟨true, peNum, devBdfn⟩
    (.success, some (devIndex, val),
      fun j => if j = devIndex then some val else cache j)

/- ===================== definitions for C3 (SPA_SETUP) ===================== -/

/-- Modelled from the spec: `NPU2_XSL_PSL_SPAP_EN` (npu2-regs.h, not under
src/): the enable bit of the SPAP register, disjoint from any 4 KiB-aligned
address, modelled as the least significant bit `PPC_BIT(63)`. -/
def NPU2_XSL_PSL_SPAP_EN : Nat := ppcBit 63

/-- Modelled from the spec: `NPU2_OTL_CONFIG0_PE_MASK` (npu2-regs.h, not
under src/): a 4-bit field, placed at big-endian bits 4..7 consistently with
the code's `reg |= (PE_mask << (63-7))` (line 1609). -/
def NPU2_OTL_CONFIG0_PE_MASK : Nat := ppcBitmask 4 7

/-- The SPAP register selected by the device's block
(`NPU2_XSL_PSL_SPAP_A0` / `NPU2_XSL_PSL_SPAP_A1`, lines 1573-1578). -/
inductive SpapReg where
  | A0
  | A1
deriving DecidableEq, Repr

/-- `opal_npu_spa_setup` (lines 1551-1617) on a valid OpenCAPI PHB, as a
function of the prior values of the selected SPAP register and of
OTL_CONFIG0. Returns the result code, the write to the selected SPAP
register (if any), and the value written back to OTL_CONFIG0 (if any). -/
def opalNpuSpaSetup (block : Block) (addr peMask : Nat) (spap otl : Nat) :
    OpalResult × Option (SpapReg × Nat) × Option Nat :=
  if addr &&& 0xFFF ≠ 0 then (.parameter, none, none)
  else if peMask > 15 then (.parameter, none, none)
  else
    let sel : SpapReg := if block = .OTL1 then .A1 else .A0
    if (addr ≠ 0 ∧ spap &&& NPU2_XSL_PSL_SPAP_EN ≠ 0) ∨
        (addr = 0 ∧ spap &&& NPU2_XSL_PSL_SPAP_EN = 0) then
      (.busy, none, none)
    else
      let spap2 := if addr ≠ 0 then addr ||| NPU2_XSL_PSL_SPAP_EN else addr
      let otl2 := (otl &&& (ones64 ^^^ NPU2_OTL_CONFIG0_PE_MASK)) |||
        (peMask <<< (63 - 7))
      (.success, some (sel, spap2), some otl2)

/- ================= definitions for C4 (SPA_CLEAR_CACHE) ================= -/

/-- `MAX_PE_HANDLE` (npu2-opencapi.c line 57): `(1 << 15) - 1`. -/
def MAX_PE_HANDLE : Nat := (1 <<< 15) - 1

/-- The polling loop of `opal_npu_spa_clear_cache` (lines 1656-1666):
`retries = 5`; read `XSL_PSL_LLCMD_A0`, succeed as soon as `PPC_BIT(16)` is
clear, give up with `OPAL_HARDWARE` when the retries are exhausted. `polls k`
is the value returned by the (k+1)-th read; the second component counts the
reads performed. -/
def ccInvPoll (polls : Nat → Nat) : Nat → Nat → OpalResult × Nat
  | 0, k => (.hardware, k)
  | fuel + 1, k =>
      if polls k &&& ppcBit 16 = 0 then (.success, k + 1)
      else ccInvPoll polls fuel (k + 1)

/-- `opal_npu_spa_clear_cache` (lines 1620-1670) on a valid OpenCAPI PHB.
`first` is the value of `XSL_PSL_LLCMD_A0` at the initial read and `polls`
the values returned by the poll reads. Returns the result code, the value
written to the register (if any), and the number of poll reads performed. -/
def opalNpuSpaClearCache (block : Block) (peHandle : Nat) (first : Nat)
    (polls : Nat → Nat) : OpalResult × Option Nat × Nat :=
  if peHandle > MAX_PE_HANDLE then (.parameter, none, 0)
  else if first &&& ppcBit 16 ≠ 0 then (.busy, none, 0)
  else
    let w := (peHandle ||| ppcBit 15) ||| (if block = .OTL1 then ppcBit 48 else 0)
    let res := ccInvPoll polls 5 0
    (res.1, some w, res.2)

/- ============ definitions for C5 (training retries, TX enable) ============ -/

/-- Modelled from the spec: `OB_ODL_STATUS_TRAINING_STATE_MACHINE`
(npu2-regs.h, not under src/): the training-state-machine field of the ODL
status register; its exact position is immaterial to the claims, modelled as
big-endian bits 49..51. -/
def OB_ODL_STATUS_TRAINING_STATE_MACHINE : Nat := ppcBitmask 49 51

/-- The status poll of `odl_train` (lines 883-896): poll until the
training-state-machine field reads `0x7`; `timeout = 3000` with a
post-decrement test gives 3001 reads before `OPAL_HARDWARE`. `polls k` is the
value of the ODL status register at the (k+1)-th read. -/
def odlTrainPoll (polls : Nat → Nat) : Nat → Nat → OpalResult
  | 0, _ => .hardware
  | fuel + 1, k =>
      if getfield OB_ODL_STATUS_TRAINING_STATE_MACHINE (polls k) = 0x7 then .success
      else odlTrainPoll polls fuel (k + 1)

/-- `odl_train` (lines 832-897), as the outcome of its final polling loop
(the preceding configuration writes and the I2C device reset do not affect
the return value). -/
def odlTrain (polls : Nat → Nat) : OpalResult :=
  odlTrainPoll polls 3001 0

/-- `LINK_TRAINING_RETRIES` (npu2-opencapi.c line 1265). -/
def LINK_TRAINING_RETRIES : Nat := 5

/-- The retry loop of `npu2_opencapi_setup_device` (lines 1370-1372):
`do { rc = odl_train(...); } while (rc != OPAL_SUCCESS && --retries);`.
`oracle a` gives the status-register reads of attempt `a`. Returns the number
of `odl_train` invocations and whether training succeeded. -/
def trainRetryLoop (oracle : Nat → Nat → Nat) : Nat → Nat → Nat × Bool
  | 0, attempt => (attempt, false)
  | retries + 1, attempt =>
      if odlTrain (oracle attempt) = .success then (attempt + 1, true)
      else if retries = 0 then (attempt + 1, false)
      else trainRetryLoop oracle retries (attempt + 1)

/-- Observable outcome of the default-training branch of
`npu2_opencapi_setup_device` (lines 1369-1412). -/
structure TrainingOutcome where
  calls : Nat
  trained : Bool
  txEnabled : Bool
  dtStatusError : Bool
  phbRegistered : Bool
deriving DecidableEq, Repr

/-- The default-training branch of `npu2_opencapi_setup_device`
(lines 1369-1412): on failure of all retries, annotate the PHB node with
`status = "error"` and return without registering the PHB; on success,
enable transmission (`otl_enabletx`, `OTL_CONFIG2.TX_SEND_EN`) and register
the PHB. -/
def npu2OpencapiSetupTraining (oracle : Nat → Nat → Nat) : TrainingOutcome :=
  let res := trainRetryLoop oracle LINK_TRAINING_RETRIES 0
  if res.2 then ⟨res.1, true, true, false, true⟩
  else ⟨res.1, false, false, true, false⟩

/- ============== definitions for C7 (fence control, NPCQ) ============== -/

/-- Modelled from the spec: `NPU2_CQ_CTL_FENCE_CONTROL_REQUEST_FENCE`
(npu2-regs.h, not under src/): the 2-bit fence-request field of the
fence-control register, modelled at big-endian bits 0..1. -/
def NPU2_CQ_CTL_FENCE_CONTROL_REQUEST_FENCE : Nat := ppcBitmask 0 1

/-- Modelled from the spec: `NPU2_CQ_CTL_STATUS_BRK0_AM_FENCED` (npu2-regs.h,
not under src/): the brick-0 fence-status field of CQ_CTL_STATUS, modelled at
big-endian bits 48..49. -/
def NPU2_CQ_CTL_STATUS_BRK0_AM_FENCED : Nat := ppcBitmask 48 49

/-- Modelled from the spec: `NPU2_CQ_CTL_STATUS_BRK1_AM_FENCED` (npu2-regs.h,
not under src/), modelled at big-endian bits 50..51. -/
def NPU2_CQ_CTL_STATUS_BRK1_AM_FENCED : Nat := ppcBitmask 50 51

/-- Modelled from the spec: `NPU2_OTL_CONFIG0_EN` (npu2-regs.h, not under
src/): the OTL enable bit, modelled as `PPC_BIT(0)`. -/
def NPU2_OTL_CONFIG0_EN : Nat := ppcBit 0

/-- Modelled from the spec: `NPU2_CQ_CTL_MISC_CFG_CONFIG_OCAPI_MODE`
(npu2-regs.h, not under src/). -/
def NPU2_CQ_CTL_MISC_CFG_CONFIG_OCAPI_MODE : Nat := ppcBit 16

/-- Modelled from the spec: `NPU2_CQ_CTL_MISC_CFG_CONFIG_OTL0_ENABLE`
(npu2-regs.h, not under src/). -/
def NPU2_CQ_CTL_MISC_CFG_CONFIG_OTL0_ENABLE : Nat := ppcBit 17

/-- Modelled from the spec: `NPU2_CQ_CTL_MISC_CFG_CONFIG_OTL1_ENABLE`
(npu2-regs.h, not under src/). -/
def NPU2_CQ_CTL_MISC_CFG_CONFIG_OTL1_ENABLE : Nat := ppcBit 18

/-- Modelled from the spec: `NPU2_CQ_DAT_MISC_CFG_CONFIG_OCAPI_MODE`
(npu2-regs.h, not under src/). -/
def NPU2_CQ_DAT_MISC_CFG_CONFIG_OCAPI_MODE : Nat := ppcBit 40

/-- Modelled from the spec: `NPU2_CQ_SM_MISC_CFG0_CONFIG_OCAPI_MODE`
(npu2-regs.h, not under src/). -/
def NPU2_CQ_SM_MISC_CFG0_CONFIG_OCAPI_MODE : Nat := ppcBit 41

/-- The fence-control register selected by the brick's block
(`NPU2_CQ_CTL_FENCE_CONTROL_0` / `_1`, lines 347-350). -/
inductive FenceReg where
  | FC0
  | FC1
deriving DecidableEq, Repr

/-- Register-plane events performed by `set_npcq_config` and
`set_fence_control`, in program order. -/
inductive NpcqEvent where
  | fenceWr (reg : FenceReg) (raw : Nat)
  | statusRd (val : Nat)
  | otlCfg0Wr (val : Nat)
  | miscCfgRd (val : Nat)
  | miscCfgWr (val : Nat)
  | datCfgRd (val : Nat)
  | datCfgWr (val : Nat)
  | smCfgRd (blk : Nat) (val : Nat)
  | smCfgWr (blk : Nat) (val : Nat)
deriving DecidableEq, Repr

/-- The poll loop of `set_fence_control` (lines 362-372): read CQ_CTL_STATUS
until the brick's AM_FENCED field equals the requested status; the 10 ms
deadline bounds the reads, modelled by the length of `polls`. Returns the
result code and the status reads performed. -/
def fencePoll (field status : Nat) : List Nat → OpalResult × List NpcqEvent
  | [] => (.hardware, [])
  | v :: rest =>
      if getfield field v = status then (.success, [.statusRd v])
      else
        let res := fencePoll field status rest
        (res.1, .statusRd v :: res.2)

/-- `set_fence_control` (lines 335-384): write the requested 2-bit status into
`CQ_CTL.FENCE_CONTROL_{0|1}` (selected by the brick's block), then poll
`CQ_CTL_STATUS.BRK{0|1}_AM_FENCED` until it echoes the status or the deadline
passes (`OPAL_HARDWARE`). -/
def setFenceControl (block : Block) (status : Nat) (polls : List Nat) :
    OpalResult × List NpcqEvent :=
  let raw := setfield NPU2_CQ_CTL_FENCE_CONTROL_REQUEST_FENCE 0 status
  let fc : FenceReg := if block = .OTL0 then .FC0 else .FC1
  let field := if block = .OTL0 then NPU2_CQ_CTL_STATUS_BRK0_AM_FENCED
    else NPU2_CQ_CTL_STATUS_BRK1_AM_FENCED
  let res := fencePoll field status polls
  (res.1, .fenceWr fc raw :: res.2)

/-- `set_npcq_config` (lines 386-446) for the brick's block: enable the OTL,
cycle the fence control through `01 → 11 → 10`, set OCAPI mode in CQ_CTL,
CQ_DAT and the four CQ_SM sub-blocks. `miscCfg0`, `datCfg0` and `smCfg` are
the prior values of the read-modify-write registers; `polls1/2/3` the
CQ_CTL_STATUS reads of the three fence transitions. Returns the event trace
and the three fence-control results (which the source ignores). -/
def setNpcqConfig (block : Block) (miscCfg0 datCfg0 : Nat) (smCfg : Nat → Nat)
    (polls1 polls2 polls3 : List Nat) :
    List NpcqEvent × (OpalResult × OpalResult × OpalResult) :=
  let f1 := setFenceControl block 0b01 polls1
  let m1 := (miscCfg0 ||| NPU2_CQ_CTL_MISC_CFG_CONFIG_OCAPI_MODE) |||
    (if block = .OTL0 then NPU2_CQ_CTL_MISC_CFG_CONFIG_OTL0_ENABLE
     else NPU2_CQ_CTL_MISC_CFG_CONFIG_OTL1_ENABLE)
  let f2 := setFenceControl block 0b11 polls2
  let f3 := setFenceControl block 0b10 polls3
  let smEvents := (List.range 4).flatMap (fun b =>
    [NpcqEvent.smCfgRd b (smCfg b),
     NpcqEvent.smCfgWr b (smCfg b ||| NPU2_CQ_SM_MISC_CFG0_CONFIG_OCAPI_MODE)])
  (NpcqEvent.otlCfg0Wr NPU2_OTL_CONFIG0_EN ::
    (f1.2 ++ (NpcqEvent.miscCfgRd miscCfg0 :: NpcqEvent.miscCfgWr m1 ::
      (f2.2 ++ (f3.2 ++ (NpcqEvent.datCfgRd datCfg0 ::
        NpcqEvent.datCfgWr (datCfg0 ||| NPU2_CQ_DAT_MISC_CFG_CONFIG_OCAPI_MODE) ::
        smEvents))))),
   (f1.1, f2.1, f3.1))

/-- The fence-control writes of a trace, in order. -/
def fenceWrites : List NpcqEvent → List (FenceReg × Nat)
  | [] => []
  | .fenceWr r v :: rest => (r, v) :: fenceWrites rest
  | _ :: rest => fenceWrites rest

/-- The CQ_CTL_STATUS reads of a trace, in order. -/
def statusReads : List NpcqEvent → List Nat
  | [] => []
  | .statusRd v :: rest => v :: statusReads rest
  | _ :: rest => statusReads rest

/- ===================== definitions for C8 (unlock) ===================== -/

/-- A lock cell (core/lock.c, struct lock): the 64-bit atomic word holding
`(pir << 32) | held` plus the console-path flag. -/
structure LockCell where
  lockVal : Nat
  inConPath : Bool
deriving DecidableEq, Repr

/-- The fields of the CPU thread descriptor read and written by `unlock`:
`pir`, `con_suspend`, `con_need_flush` and the held-locks list (modelled by
lock identities). -/
structure CpuThread where
  pir : Nat
  conSuspend : Nat
  conNeedFlush : Bool
  locksHeld : List Nat
deriving DecidableEq, Repr

/-- Outcome of `unlock`: the final `bust_locks`, the final lock cell, whether
the fatal `lock_error` path was taken (it aborts), the state cell included in
the error log (if any), whether the console was flushed, and the final CPU
state. -/
structure UnlockResult where
  bust : Bool
  lockVal : Nat
  fatal : Bool
  loggedVal : Option Nat
  flushed : Bool
  cpu : CpuThread
deriving DecidableEq, Repr

/-- `unlock` (core/lock.c lines 245-267) with the `unlock_check` /
`lock_error` path of lines 34-64: with `bust_locks` clear, releasing a lock
whose held bit is clear, whose owner is not the caller, whose console-path
invariant is violated, or while the caller's held list is empty, sets
`bust_locks`, logs the state cell and aborts without touching the lock cell;
otherwise the cell is cleared and the held list and console suspension are
updated. -/
def unlockModel (bust : Bool) (lockId : Nat) (l : LockCell) (cpu : CpuThread) :
    UnlockResult :=
  if bust then ⟨true, l.lockVal, false, none, false, cpu⟩
  else if l.lockVal &&& 1 = 0 then ⟨true, l.lockVal, true, some l.lockVal, false, cpu⟩
  else if l.lockVal >>> 32 ≠ cpu.pir then
    ⟨true, l.lockVal, true, some l.lockVal, false, cpu⟩
  else if l.inConPath ∧ cpu.conSuspend = 0 then
    ⟨true, l.lockVal, true, some l.lockVal, false, cpu⟩
  else if cpu.locksHeld = [] then ⟨true, l.lockVal, true, some l.lockVal, false, cpu⟩
  else
    let held2 := cpu.locksHeld.erase lockId
    let suspend2 := if l.inConPath then cpu.conSuspend - 1 else cpu.conSuspend
    let doFlush := l.inConPath ∧ suspend2 = 0 ∧ cpu.conNeedFlush
    ⟨false, 0, false, none, decide doFlush,
      CpuThread.mk cpu.pir suspend2 cpu.conNeedFlush held2⟩

/- ================= definitions for C10 (config reads) ================= -/

/-- `npu2_opencapi_pcicfg_check` (lines 949-956): reject a missing device, an
offset beyond 0xFFF, or a misaligned access. -/
def npu2OpencapiPcicfgCheck (devPresent : Bool) (offset size : Nat) : OpalResult :=
  if ¬devPresent ∨ offset > 0xfff ∨ offset &&& (size - 1) ≠ 0 then .parameter
  else .success

/-- `npu2_opencapi_pcicfg_read` (lines 958-1002) with the GENID-window MMIO
access abstracted by `mmio` (the payload the window returns): the data buffer
is written only on the success path. -/
def npu2OpencapiPcicfgRead (devPresent : Bool) (offset size : Nat) (mmio : Nat) :
    OpalResult × Option Nat :=
  if npu2OpencapiPcicfgCheck devPresent offset size ≠ .success then
    (npu2OpencapiPcicfgCheck devPresent offset size, none)
  else
    match size with
    | 1 => (.success, some mmio)
    | 2 => (.success, some mmio)
    | 4 => (.success, some mmio)
    | _ => (.parameter, none)

/-- `npu2_opencapi_pcicfg_read8` (macro `NPU2_OPENCAPI_PCI_CFG_READ`, lines
1004-1014): `*data = (u8)0xffffffff` before any validation, then the common
read; `stale` is the caller's prior buffer content, which never survives. -/
def npu2OpencapiPcicfgRead8 (stale : Nat) (devPresent : Bool)
    (offset mmio : Nat) : OpalResult × Nat :=
  let d0 := 0xffffffff % 2 ^ 8
  let _ := stale
  match npu2OpencapiPcicfgRead devPresent offset 1 mmio with
  | (.success, some v) => (.success, v)
  | (rc, _) => (rc, d0)

/-- `npu2_opencapi_pcicfg_read16`: `*data = (u16)0xffffffff` first. -/
def npu2OpencapiPcicfgRead16 (stale : Nat) (devPresent : Bool)
    (offset mmio : Nat) : OpalResult × Nat :=
  let d0 := 0xffffffff % 2 ^ 16
  let _ := stale
  match npu2OpencapiPcicfgRead devPresent offset 2 mmio with
  | (.success, some v) => (.success, v)
  | (rc, _) => (rc, d0)

/-- `npu2_opencapi_pcicfg_read32`: `*data = (u32)0xffffffff` first. -/
def npu2OpencapiPcicfgRead32 (stale : Nat) (devPresent : Bool)
    (offset mmio : Nat) : OpalResult × Nat :=
  let d0 := 0xffffffff % 2 ^ 32
  let _ := stale
  match npu2OpencapiPcicfgRead devPresent offset 4 mmio with
  | (.success, some v) => (.success, v)
  | (rc, _) => (rc, d0)

/- ======================= general bit-level lemmas ======================= -/

/-- A value narrower than a field is unchanged by masking with that field. -/
theorem shiftLand (f s w : Nat) (hf : f < 2 ^ w) :
    (f <<< s) &&& ((2 ^ w - 1) <<< s) = f <<< s := by
  apply Nat.eq_of_testBit_eq
  intro i
  simp only [Nat.testBit_and, Nat.testBit_shiftLeft, Nat.testBit_two_pow_sub_one]
  by_cases hsi : s ≤ i
  · by_cases hiw : i - s < w
    · simp [hsi, hiw]
    · have hfb : f.testBit (i - s) = false :=
        Nat.testBit_eq_false_of_lt
          (lt_of_lt_of_le hf (Nat.pow_le_pow_right (by norm_num) (le_of_not_lt hiw)))
      simp [hsi, hiw, hfb]
  · simp [hsi]

/-- Clearing a shifted field and OR-ing in a narrow value leaves exactly that
value under the field mask. -/
theorem fieldUpdate (v f s w : Nat) (hf : f < 2 ^ w) (hsw : s + w ≤ 64) :
    ((v &&& (ones64 ^^^ ((2 ^ w - 1) <<< s))) ||| (f <<< s)) &&&
      ((2 ^ w - 1) <<< s) = f <<< s := by
  apply Nat.eq_of_testBit_eq
  intro i
  simp only [Nat.testBit_and, Nat.testBit_or, Nat.testBit_xor,
    Nat.testBit_shiftLeft, Nat.testBit_two_pow_sub_one, ones64]
  by_cases hsi : s ≤ i
  · by_cases hiw : i - s < w
    · have hi64 : i < 64 := by omega
      simp [hsi, hiw, hi64]
    · have hfb : f.testBit (i - s) = false :=
        Nat.testBit_eq_false_of_lt
          (lt_of_lt_of_le hf (Nat.pow_le_pow_right (by norm_num) (le_of_not_lt hiw)))
      simp [hsi, hiw, hfb]
  · simp [hsi]

/-- Left shift then right shift by the same amount is the identity on `Nat`. -/
theorem shiftCancel (f s : Nat) : (f <<< s) >>> s = f := by
  rw [Nat.shiftLeft_eq, Nat.shiftRight_eq_div_pow]
  exact Nat.mul_div_cancel f (pow_pos (by norm_num) s)

/-- `GETFIELD` after the C idiom `reg &= ~MASK; reg |= f << s` recovers `f`. -/
theorem getfield_update (v f s w m : Nat) (hf : f < 2 ^ w) (hsw : s + w ≤ 64)
    (hm : m = (2 ^ w - 1) <<< s) (hl : maskToLsh m = s) :
    getfield m ((v &&& (ones64 ^^^ m)) ||| (f <<< s)) = f := by
  subst hm
  unfold getfield
  rw [hl, fieldUpdate v f s w hf hsw, shiftCancel]

/-- `GETFIELD` after `SETFIELD` recovers the field value. -/
theorem getfield_setfield (v f s w m : Nat) (hf : f < 2 ^ w) (hsw : s + w ≤ 64)
    (hm : m = (2 ^ w - 1) <<< s) (hl : maskToLsh m = s) :
    getfield m (setfield m v f) = f := by
  have h2 : setfield m v f = (v &&& (ones64 ^^^ m)) ||| (f <<< s) := by
    unfold setfield
    rw [hl, hm, shiftLand f s w hf]
  rw [h2]
  exact getfield_update v f s w m hf hsw hm hl

/- ============================ claim theorems ============================ -/

/-- Claim C6: the brick-index mapping functions are total exactly on indices
{2,3,4,5}; for each such index they produce the stack, upper-stack, block,
ODL-status register, ODL-config register and OBUS PHY-config register of the
corresponding row of the spec table (with the ODL numbering swapped on
stack 2: index 4 maps to OB3_ODL1_*, index 5 to OB3_ODL0_*), and every other
index is rejected (the fatal assertion, modelled as `none`). -/
theorem claim_C6_brick_index_algebra :
    (∀ i : Nat,
      ((indexToStack i).isSome ↔ (i = 2 ∨ i = 3 ∨ i = 4 ∨ i = 5)) ∧
      ((indexToStacku i).isSome ↔ (i = 2 ∨ i = 3 ∨ i = 4 ∨ i = 5)) ∧
      ((indexToBlock i).isSome ↔ (i = 2 ∨ i = 3 ∨ i = 4 ∨ i = 5)) ∧
      ((odlStatusRegOf i).isSome ↔ (i = 2 ∨ i = 3 ∨ i = 4 ∨ i = 5)) ∧
      ((odlConfigRegOf i).isSome ↔ (i = 2 ∨ i = 3 ∨ i = 4 ∨ i = 5)) ∧
      ((phyConfigRegOf i).isSome ↔ (i = 2 ∨ i = 3 ∨ i = 4 ∨ i = 5))) ∧
    indexToStack 2 = some .STCK_1 ∧ indexToStack 3 = some .STCK_1 ∧
    indexToStack 4 = some .STCK_2 ∧ indexToStack 5 = some .STCK_2 ∧
    indexToStacku 2 = some .STCK_1U ∧ indexToStacku 3 = some .STCK_1U ∧
    indexToStacku 4 = some .STCK_2U ∧ indexToStacku 5 = some .STCK_2U ∧
    indexToBlock 2 = some .OTL0 ∧ indexToBlock 3 = some .OTL1 ∧
    indexToBlock 4 = some .OTL0 ∧ indexToBlock 5 = some .OTL1 ∧
    odlStatusRegOf 2 = some .OB0_ODL0_STATUS ∧
    odlStatusRegOf 3 = some .OB0_ODL1_STATUS ∧
    odlStatusRegOf 4 = some .OB3_ODL1_STATUS ∧
    odlStatusRegOf 5 = some .OB3_ODL0_STATUS ∧
    odlConfigRegOf 2 = some .OB0_ODL0_CONFIG ∧
    odlConfigRegOf 3 = some .OB0_ODL1_CONFIG ∧
    odlConfigRegOf 4 = some .OB3_ODL1_CONFIG ∧
    odlConfigRegOf 5 = some .OB3_ODL0_CONFIG ∧
    phyConfigRegOf 2 = some .OBUS_LL0 ∧ phyConfigRegOf 3 = some .OBUS_LL0 ∧
    phyConfigRegOf 4 = some .OBUS_LL3 ∧ phyConfigRegOf 5 = some .OBUS_LL3 := by
  refine ⟨fun i => ?_, ?_⟩
  · rcases i with _ | _ | _ | _ | _ | _ | n <;>
      simp [indexToStack, indexToStacku, indexToBlock, odlStatusRegOf,
        odlConfigRegOf, phyConfigRegOf]
  · refine ⟨rfl, rfl, rfl, rfl, rfl, rfl, rfl, rfl, rfl, rfl, rfl, rfl,
      rfl, rfl, rfl, rfl, rfl, rfl, rfl, rfl, rfl, rfl, rfl, rfl⟩

/-- Claim C9: bricks 2,3,4,5 receive translation-fault IRQ numbers
`irq_base + 23, +24, +25, +26` respectively, i.e. `irq_base + 23` plus 2 for
upper-stack STCK_2U (indices 4,5) plus 1 for block OTL1 (indices 3,5). -/
theorem claim_C9_irq_numbers :
    ∀ irqBase : Nat,
      xslIrqNumber irqBase 2 = some (irqBase + 23) ∧
      xslIrqNumber irqBase 3 = some (irqBase + 24) ∧
      xslIrqNumber irqBase 4 = some (irqBase + 25) ∧
      xslIrqNumber irqBase 5 = some (irqBase + 26) := by
  intro irqBase
  refine ⟨?_, ?_, ?_, ?_⟩ <;>
    simp [xslIrqNumber, indexToStacku, indexToBlock, NPU_IRQ_LEVELS_XSL]

/-- Claim C1 (code bug): `opal_npu_tl_set` is claimed to leave
`OTL_CONFIG1.TX_TEMP{i}_EN = 1` iff capability bit `i` is set, for each
`i ∈ {1,2,3}`, regardless of the register's prior contents. The clear mask at
lines 1733-1734 names `TX_TEMP1_EN` twice and omits `TX_TEMP2_EN`, so with
prior contents `PPC_BIT(2)` (template 2 enabled) and capabilities `1`
(bit 2 clear), the call succeeds yet leaves the template-2 enable bit
(`PPC_BIT(2)`, i.e. bit 61) set, where the claim requires it clear. -/
theorem claim_C1_tl_set_temp2_stale :
    (opalNpuTlSet (ppcBit 2) 1 (List.replicate 32 0) 32).1 = OpalResult.success ∧
    ((opalNpuTlSet (ppcBit 2) 1 (List.replicate 32 0) 32).2.getD 0).testBit 61 = true ∧
    NPU2_OTL_CONFIG1_TX_TEMP2_EN = 2 ^ 61 ∧
    1 &&& (1 <<< 2) = 0 := by
  decide

/-- Claim C2 counterexample: the claim says the written
`MISC.BRICK{i}_BDF2PE_MAP0` value carries `BDF = bdfn` where `bdfn` is the
caller's argument. With a device whose own `bdfn` is 0 (as fixed by
`npu2_opencapi_setup_device`) and a caller-supplied `bdfn = 5`, the written
BDF field is 0, not 5 (line 1117 uses `dev->bdfn`). -/
theorem claim_C2_counterexample :
    (npu2OpencapiSetPe 16 0 2 (fun _ => none) 3 5 7 1 1 1).2.1 =
      some (2, Bdf2PeMapVal.mk true 3 0) ∧
    (npu2OpencapiSetPe 16 0 2 (fun _ => none) 3 5 7 1 1 1).2.1 ≠
      some (2, Bdf2PeMapVal.mk true 3 5) := by
  constructor
  · decide
  · decide

/-- Claim C2 (amended): with action in {Map, Unmap}, `pe_num < MAX_PE_NUM`,
`bdfn < 256` and the required comparison keys, `npu2_opencapi_set_pe` returns
Success and writes `MISC.BRICK{i}_BDF2PE_MAP0` for the device's brick index
with `ENABLE | PE=pe_num | BDF=dev->bdfn` (the device's own bdfn, not the
caller's `bdfn` argument, which is only range-checked), caching the same
value per brick; any other action or out-of-range pe_num/bdfn returns
InvalidParameter, and wrong comparison keys return Unsupported, in both
cases without writing. -/
theorem claim_C2_amended :
    ∀ (maxPe devBdfn devIndex : Nat) (cache : Nat → Option Bdf2PeMapVal)
      (peNum bdfn b d f act : Nat),
      ((act = OPAL_MAP_PE ∨ act = OPAL_UNMAP_PE) → peNum < maxPe → bdfn < 256 →
        b = OpalPciBusAll → d = OPAL_COMPARE_RID_DEVICE_NUMBER →
        f = OPAL_COMPARE_RID_FUNCTION_NUMBER →
        npu2OpencapiSetPe maxPe devBdfn devIndex cache peNum bdfn b d f act =
          (OpalResult.success, some (devIndex, Bdf2PeMapVal.mk true peNum devBdfn),
            fun j => if j = devIndex then some (Bdf2PeMapVal.mk true peNum devBdfn)
              else cache j)) ∧
      (((act ≠ OPAL_MAP_PE ∧ act ≠ OPAL_UNMAP_PE) ∨ maxPe ≤ peNum ∨ 256 ≤ bdfn) →
        npu2OpencapiSetPe maxPe devBdfn devIndex cache peNum bdfn b d f act =
          (OpalResult.parameter, none, cache)) ∧
      ((act = OPAL_MAP_PE ∨ act = OPAL_UNMAP_PE) → peNum < maxPe → bdfn < 256 →
        (b ≠ OpalPciBusAll ∨ d ≠ OPAL_COMPARE_RID_DEVICE_NUMBER ∨
          f ≠ OPAL_COMPARE_RID_FUNCTION_NUMBER) →
        npu2OpencapiSetPe maxPe devBdfn devIndex cache peNum bdfn b d f act =
          (OpalResult.unsupported, none, cache)) := by
  intro maxPe devBdfn devIndex cache peNum bdfn b d f act
  have hsh : bdfn >>> 8 = bdfn / 256 := by
    rw [Nat.shiftRight_eq_div_pow]
  have hdiv : bdfn / 256 = 0 ↔ bdfn < 256 := Nat.div_eq_zero_iff (by norm_num)
  refine ⟨?_, ?_, ?_⟩
  · intro ha hpe hb hkb hkd hkf
    have h1 : ¬(act ≠ OPAL_MAP_PE ∧ act ≠ OPAL_UNMAP_PE) := by
      rcases ha with h | h <;> simp [h]
    have h2 : ¬peNum ≥ maxPe := by omega
    have h3 : ¬bdfn >>> 8 ≠ 0 := by
      rw [hsh]
      simpa [hdiv] using hb
    have h4 : ¬(b ≠ OpalPciBusAll ∨ d ≠ OPAL_COMPARE_RID_DEVICE_NUMBER ∨
        f ≠ OPAL_COMPARE_RID_FUNCTION_NUMBER) := by
      simp [hkb, hkd, hkf]
    unfold npu2OpencapiSetPe
    rw [if_neg h1, if_neg h2, if_neg h3, if_neg h4]
  · intro h
    have hb2 : bdfn >>> 8 ≠ 0 ↔ 256 ≤ bdfn := by
      rw [hsh]
      constructor
      · intro hne
        by_contra hlt
        exact hne (hdiv.mpr (by omega))
      · intro hge hz
        have := hdiv.mp hz
        omega
    unfold npu2OpencapiSetPe
    split_ifs with h1 h2 h3 h4 <;> try rfl
    · exfalso
      rcases h with h | h | h
      · exact h1 h
      · exact absurd h2 (by omega)
      · exact h3 (hb2.mpr h)
    · exfalso
      rcases h with h | h | h
      · exact h1 h
      · exact absurd h2 (by omega)
      · exact h3 (hb2.mpr h)
  · intro ha hpe hb hkeys
    have h1 : ¬(act ≠ OPAL_MAP_PE ∧ act ≠ OPAL_UNMAP_PE) := by
      rcases ha with h | h <;> simp [h]
    have h2 : ¬peNum ≥ maxPe := by omega
    have h3 : ¬bdfn >>> 8 ≠ 0 := by
      rw [hsh]
      simpa [hdiv] using hb
    unfold npu2OpencapiSetPe
    rw [if_neg h1, if_neg h2, if_neg h3, if_pos hkeys]

/-- Claim C2 witness: the amended theorem at a concrete input (`pe_num = 3`,
caller `bdfn = 5`, device bdfn 0, brick index 2, Map action). -/
theorem claim_C2_witness :
    npu2OpencapiSetPe 16 0 2 (fun _ => none) 3 5 7 1 1 1 =
      (OpalResult.success, some (2, Bdf2PeMapVal.mk true 3 0),
        fun j => if j = 2 then some (Bdf2PeMapVal.mk true 3 0)
          else (fun _ => (none : Option Bdf2PeMapVal)) j) :=
  (claim_C2_amended 16 0 2 (fun _ => none) 3 5 7 1 1 1).1
    (Or.inl rfl) (by norm_num) (by norm_num) rfl rfl rfl

/-- Claim C3: for `opal_npu_spa_setup` with a 4 KiB-aligned address and PE
mask at most 15 on a valid OpenCAPI PHB, the call returns Busy exactly when
the SPAP enable bit disagrees with the requested direction (nonzero addr with
enable set, or zero addr with enable clear), and on Busy neither the SPAP
register nor OTL_CONFIG0 is written; otherwise it writes `addr | EN` (or 0 to
clear) into the SPAP register selected by the device's block, updates
`OTL_CONFIG0.PE_MASK` to the supplied 4-bit mask, and returns Success.
Unaligned addresses or a PE mask above 15 return InvalidParameter with no
register written. -/
theorem claim_C3_spa_setup :
    ∀ (block : Block) (addr peMask spap otl : Nat),
      (addr &&& 0xFFF = 0 → peMask ≤ 15 →
        ((opalNpuSpaSetup block addr peMask spap otl).1 = OpalResult.busy ↔
          ((addr ≠ 0 ∧ spap &&& NPU2_XSL_PSL_SPAP_EN ≠ 0) ∨
            (addr = 0 ∧ spap &&& NPU2_XSL_PSL_SPAP_EN = 0))) ∧
        (((addr ≠ 0 ∧ spap &&& NPU2_XSL_PSL_SPAP_EN ≠ 0) ∨
            (addr = 0 ∧ spap &&& NPU2_XSL_PSL_SPAP_EN = 0)) →
          opalNpuSpaSetup block addr peMask spap otl =
            (OpalResult.busy, none, none)) ∧
        (¬((addr ≠ 0 ∧ spap &&& NPU2_XSL_PSL_SPAP_EN ≠ 0) ∨
            (addr = 0 ∧ spap &&& NPU2_XSL_PSL_SPAP_EN = 0)) →
          ∃ otl2,
            opalNpuSpaSetup block addr peMask spap otl =
              (OpalResult.success,
                some ((if block = Block.OTL1 then SpapReg.A1 else SpapReg.A0),
                  if addr ≠ 0 then addr ||| NPU2_XSL_PSL_SPAP_EN else 0),
                some otl2) ∧
            getfield NPU2_OTL_CONFIG0_PE_MASK otl2 = peMask)) ∧
      ((addr &&& 0xFFF ≠ 0 ∨ peMask > 15) →
        opalNpuSpaSetup block addr peMask spap otl =
          (OpalResult.parameter, none, none)) := by
  intro block addr peMask spap otl
  constructor
  · intro hal hpe
    have h1 : ¬addr &&& 0xFFF ≠ 0 := by simp [hal]
    have h2 : ¬peMask > 15 := by omega
    refine ⟨?_, ?_, ?_⟩
    · unfold opalNpuSpaSetup
      rw [if_neg h1, if_neg h2]
      by_cases hd : (addr ≠ 0 ∧ spap &&& NPU2_XSL_PSL_SPAP_EN ≠ 0) ∨
          (addr = 0 ∧ spap &&& NPU2_XSL_PSL_SPAP_EN = 0)
      · simp [hd]
      · simp [hd]
    · intro hd
      unfold opalNpuSpaSetup
      rw [if_neg h1, if_neg h2, if_pos hd]
    · intro hd
      refine ⟨(otl &&& (ones64 ^^^ NPU2_OTL_CONFIG0_PE_MASK)) |||
        (peMask <<< (63 - 7)), ?_, ?_⟩
      · unfold opalNpuSpaSetup
        rw [if_neg h1, if_neg h2, if_neg hd]
        by_cases ha : addr = 0
        · simp [ha]
        · simp [ha]
      · exact getfield_update otl peMask 56 4 NPU2_OTL_CONFIG0_PE_MASK
          (by omega) (by norm_num) (by decide) (by decide)
  · intro h
    unfold opalNpuSpaSetup
    rcases h with h | h
    · rw [if_pos h]
    · by_cases hz : addr &&& 0xFFF ≠ 0
      · rw [if_pos hz]
      · rw [if_neg hz, if_pos h]

/-- Claim C3 witness: installing a SPA at the 4 KiB-aligned address 0x1000
with PE mask 5 into a disabled SPAP register succeeds and programs the mask. -/
theorem claim_C3_witness :
    ∃ otl2,
      opalNpuSpaSetup Block.OTL0 4096 5 0 0 =
        (OpalResult.success,
          some (SpapReg.A0,
            if (4096 : Nat) ≠ 0 then 4096 ||| NPU2_XSL_PSL_SPAP_EN else 0),
          some otl2) ∧
      getfield NPU2_OTL_CONFIG0_PE_MASK otl2 = 5 :=
  ((claim_C3_spa_setup Block.OTL0 4096 5 0 0).1 (by decide) (by decide)).2.2
    (by decide)

/-- Claim C8: with `bust_locks` clear, calling `unlock` on a lock whose held
bit is clear or whose owner field is not the calling CPU's PIR is detected
and fatal: `bust_locks` is set, the state cell is logged, the path aborts,
and the lock cell is not cleared. -/
theorem claim_C8_unlock_unowned :
    ∀ (lockId : Nat) (l : LockCell) (cpu : CpuThread),
      (l.lockVal &&& 1 = 0 ∨ l.lockVal >>> 32 ≠ cpu.pir) →
      (unlockModel false lockId l cpu).fatal = true ∧
      (unlockModel false lockId l cpu).bust = true ∧
      (unlockModel false lockId l cpu).lockVal = l.lockVal ∧
      (unlockModel false lockId l cpu).loggedVal = some l.lockVal := by
  intro lockId l cpu h
  by_cases h1 : l.lockVal &&& 1 = 0
  · simp [unlockModel, h1]
  · have h2 : l.lockVal >>> 32 ≠ cpu.pir := by
      rcases h with h | h
      · exact absurd h h1
      · exact h
    simp [unlockModel, h1, h2]

/-- Claim C8 witness: unlocking a never-taken lock (cell 0) from CPU with
PIR 7 takes the fatal path without clearing the cell. -/
theorem claim_C8_witness :
    (unlockModel false 0 (LockCell.mk 0 false) (CpuThread.mk 7 0 false [])).fatal
        = true ∧
    (unlockModel false 0 (LockCell.mk 0 false) (CpuThread.mk 7 0 false [])).bust
        = true ∧
    (unlockModel false 0 (LockCell.mk 0 false) (CpuThread.mk 7 0 false [])).lockVal
        = (LockCell.mk 0 false).lockVal ∧
    (unlockModel false 0 (LockCell.mk 0 false) (CpuThread.mk 7 0 false [])).loggedVal
        = some (LockCell.mk 0 false).lockVal :=
  claim_C8_unlock_unowned 0 (LockCell.mk 0 false) (CpuThread.mk 7 0 false [])
    (Or.inl (by decide))

/-- Claim C10: each config-space read entry point stores the all-ones value
of its access width into the caller's buffer before validation, so any
non-Success return leaves the buffer holding all-ones (0xFF / 0xFFFF /
0xFFFFFFFF), never the stale prior contents. -/
theorem claim_C10_cfg_read_ones :
    ∀ (stale : Nat) (devPresent : Bool) (offset mmio : Nat),
      ((npu2OpencapiPcicfgRead8 stale devPresent offset mmio).1 ≠
          OpalResult.success →
        (npu2OpencapiPcicfgRead8 stale devPresent offset mmio).2 = 0xff) ∧
      ((npu2OpencapiPcicfgRead16 stale devPresent offset mmio).1 ≠
          OpalResult.success →
        (npu2OpencapiPcicfgRead16 stale devPresent offset mmio).2 = 0xffff) ∧
      ((npu2OpencapiPcicfgRead32 stale devPresent offset mmio).1 ≠
          OpalResult.success →
        (npu2OpencapiPcicfgRead32 stale devPresent offset mmio).2 = 0xffffffff) := by
  intro stale dev off mmio
  refine ⟨?_, ?_, ?_⟩
  · intro h
    rcases hres : npu2OpencapiPcicfgCheck dev off 1 with _ | _ | _ | _ | _ <;>
      simp [npu2OpencapiPcicfgRead8, npu2OpencapiPcicfgRead, hres] at h ⊢
  · intro h
    rcases hres : npu2OpencapiPcicfgCheck dev off 2 with _ | _ | _ | _ | _ <;>
      simp [npu2OpencapiPcicfgRead16, npu2OpencapiPcicfgRead, hres] at h ⊢
  · intro h
    rcases hres : npu2OpencapiPcicfgCheck dev off 4 with _ | _ | _ | _ | _ <;>
      simp [npu2OpencapiPcicfgRead32, npu2OpencapiPcicfgRead, hres] at h ⊢

/-- Claim C10 witness: reads at offset 0x1000 (beyond 0xFFF) fail and leave
all-ones of each width in the buffer, whatever stale value was there. -/
theorem claim_C10_witness :
    (npu2OpencapiPcicfgRead8 0x12 true 0x1000 0).2 = 0xff ∧
    (npu2OpencapiPcicfgRead16 0x34 true 0x1000 0).2 = 0xffff ∧
    (npu2OpencapiPcicfgRead32 0x56 true 0x1000 0).2 = 0xffffffff :=
  ⟨(claim_C10_cfg_read_ones 0x12 true 0x1000 0).1 (by decide),
   (claim_C10_cfg_read_ones 0x34 true 0x1000 0).2.1 (by decide),
   (claim_C10_cfg_read_ones 0x56 true 0x1000 0).2.2 (by decide)⟩

/-- The clear-cache poll succeeds exactly when one of the remaining reads has
`PPC_BIT(16)` clear. -/
theorem ccInvPoll_success_iff (polls : Nat → Nat) :
    ∀ fuel k, (ccInvPoll polls fuel k).1 = OpalResult.success ↔
      ∃ j, j < fuel ∧ polls (k + j) &&& ppcBit 16 = 0 := by
  intro fuel
  induction fuel with
  | zero =>
      intro k
      simp [ccInvPoll]
  | succ n ih =>
      intro k
      unfold ccInvPoll
      by_cases h : polls k &&& ppcBit 16 = 0
      · simp only [h, if_true]
        constructor
        · intro _
          exact ⟨0, by omega, by simpa using h⟩
        · intro _
          trivial
      · rw [if_neg h, ih (k + 1)]
        constructor
        · rintro ⟨j, hj, hp⟩
          refine ⟨j + 1, by omega, ?_⟩
          have he : k + (j + 1) = k + 1 + j := by omega
          rw [he]
          exact hp
        · rintro ⟨j, hj, hp⟩
          cases j with
          | zero =>
              exact absurd (by simpa using hp) h
          | succ j' =>
              refine ⟨j', by omega, ?_⟩
              have he : k + 1 + j' = k + (j' + 1) := by omega
              rw [he]
              exact hp

/-- The clear-cache poll returns either Success or HardwareError. -/
theorem ccInvPoll_result (polls : Nat → Nat) :
    ∀ fuel k, (ccInvPoll polls fuel k).1 = OpalResult.success ∨
      (ccInvPoll polls fuel k).1 = OpalResult.hardware := by
  intro fuel
  induction fuel with
  | zero =>
      intro k
      simp [ccInvPoll]
  | succ n ih =>
      intro k
      unfold ccInvPoll
      by_cases h : polls k &&& ppcBit 16 = 0
      · simp [h]
      · rw [if_neg h]
        exact ih (k + 1)

/-- The clear-cache poll stops at the first read with `PPC_BIT(16)` clear. -/
theorem ccInvPoll_first_clear (polls : Nat → Nat) :
    ∀ j fuel k, j < fuel →
      (∀ i, i < j → polls (k + i) &&& ppcBit 16 ≠ 0) →
      polls (k + j) &&& ppcBit 16 = 0 →
      ccInvPoll polls fuel k = (OpalResult.success, k + j + 1) := by
  intro j
  induction j with
  | zero =>
      intro fuel k hj _ hc
      cases fuel with
      | zero => omega
      | succ n =>
          unfold ccInvPoll
          rw [if_pos (by simpa using hc)]
  | succ j' ih =>
      intro fuel k hj hall hc
      cases fuel with
      | zero => omega
      | succ n =>
          unfold ccInvPoll
          have h0 : ¬polls k &&& ppcBit 16 = 0 := by
            simpa using hall 0 (by omega)
          rw [if_neg h0]
          have heq : k + (j' + 1) + 1 = k + 1 + j' + 1 := by omega
          rw [heq]
          refine ih n (k + 1) (by omega) ?_ ?_
          · intro i hi
            have he : k + 1 + i = k + (i + 1) := by omega
            rw [he]
            exact hall (i + 1) (by omega)
          · have he : k + 1 + j' = k + (j' + 1) := by omega
            rw [he]
            exact hc

/-- Claim C4: for `opal_npu_spa_clear_cache` on a valid OpenCAPI PHB: a PE
handle above 2^15−1 returns InvalidParameter; if `PPC_BIT(16)` of
XSL_PSL_LLCMD_A0 is set at the first read, the call returns Busy without
writing; otherwise it writes `PE_handle | PPC_BIT(15)` (OR `PPC_BIT(48)` for
block OTL1) and polls up to 5 times, returning Success as soon as bit 16
reads clear (after exactly `j+1` reads when `j` is the first clear poll) and
HardwareError if it is still set after all 5 polls. -/
theorem claim_C4_spa_clear_cache :
    ∀ (block : Block) (peHandle first : Nat) (polls : Nat → Nat),
      (peHandle > MAX_PE_HANDLE →
        opalNpuSpaClearCache block peHandle first polls =
          (OpalResult.parameter, none, 0)) ∧
      (peHandle ≤ MAX_PE_HANDLE → first &&& ppcBit 16 ≠ 0 →
        opalNpuSpaClearCache block peHandle first polls =
          (OpalResult.busy, none, 0)) ∧
      (peHandle ≤ MAX_PE_HANDLE → first &&& ppcBit 16 = 0 →
        ((opalNpuSpaClearCache block peHandle first polls).2.1 =
          some ((peHandle ||| ppcBit 15) |||
            (if block = Block.OTL1 then ppcBit 48 else 0))) ∧
        ((opalNpuSpaClearCache block peHandle first polls).1 =
            OpalResult.success ↔
          ∃ j, j < 5 ∧ polls j &&& ppcBit 16 = 0) ∧
        ((¬∃ j, j < 5 ∧ polls j &&& ppcBit 16 = 0) →
          (opalNpuSpaClearCache block peHandle first polls).1 =
            OpalResult.hardware) ∧
        (∀ j, j < 5 → (∀ i, i < j → polls i &&& ppcBit 16 ≠ 0) →
          polls j &&& ppcBit 16 = 0 →
          (opalNpuSpaClearCache block peHandle first polls).1 =
              OpalResult.success ∧
          (opalNpuSpaClearCache block peHandle first polls).2.2 = j + 1)) := by
  intro block peHandle first polls
  refine ⟨?_, ?_, ?_⟩
  · intro h
    unfold opalNpuSpaClearCache
    rw [if_pos h]
  · intro h1 h2
    unfold opalNpuSpaClearCache
    rw [if_neg (by omega), if_pos h2]
  · intro h1 h2
    have hnb : ¬peHandle > MAX_PE_HANDLE := by omega
    have hs : opalNpuSpaClearCache block peHandle first polls =
        ((ccInvPoll polls 5 0).1,
          some ((peHandle ||| ppcBit 15) |||
            (if block = Block.OTL1 then ppcBit 48 else 0)),
          (ccInvPoll polls 5 0).2) := by
      unfold opalNpuSpaClearCache
      rw [if_neg hnb, if_neg (by simp [h2])]
    refine ⟨?_, ?_, ?_, ?_⟩
    · rw [hs]
    · rw [hs]
      have := ccInvPoll_success_iff polls 5 0
      simpa using this
    · intro hno
      rw [hs]
      rcases ccInvPoll_result polls 5 0 with hr | hr
      · exfalso
        have := (ccInvPoll_success_iff polls 5 0).mp hr
        apply hno
        simpa using this
      · exact hr
    · intro j hj hall hc
      have := ccInvPoll_first_clear polls j 5 0 hj
        (by intro i hi; simpa using hall i hi) (by simpa using hc)
      rw [hs, this]
      exact ⟨rfl, by simp⟩

/-- Claim C4 witness: with the busy bit set only on the first poll, the call
writes `PE_handle | PPC_BIT(15)`, succeeds, and performs exactly 2 reads. -/
theorem claim_C4_witness :
    ((opalNpuSpaClearCache Block.OTL0 3 0
        (fun k => if k = 0 then ppcBit 16 else 0)).1 = OpalResult.success ∧
      (opalNpuSpaClearCache Block.OTL0 3 0
        (fun k => if k = 0 then ppcBit 16 else 0)).2.2 = 1 + 1) ∧
    (opalNpuSpaClearCache Block.OTL0 3 0
        (fun k => if k = 0 then ppcBit 16 else 0)).2.1 =
      some (((3 : Nat) ||| ppcBit 15) |||
        (if Block.OTL0 = Block.OTL1 then ppcBit 48 else 0)) :=
  ⟨((claim_C4_spa_clear_cache Block.OTL0 3 0
      (fun k => if k = 0 then ppcBit 16 else 0)).2.2 (by decide) (by decide)).2.2.2
      1 (by decide) (by decide) (by decide),
   ((claim_C4_spa_clear_cache Block.OTL0 3 0
      (fun k => if k = 0 then ppcBit 16 else 0)).2.2 (by decide) (by decide)).1⟩

/-- If the training-state-machine field never reads 0x7, the training poll
exhausts its deadline and returns HardwareError. -/
theorem odlTrainPoll_never (polls : Nat → Nat)
    (h : ∀ p, getfield OB_ODL_STATUS_TRAINING_STATE_MACHINE (polls p) ≠ 7) :
    ∀ fuel k, odlTrainPoll polls fuel k = OpalResult.hardware := by
  intro fuel
  induction fuel with
  | zero =>
      intro k
      rfl
  | succ n ih =>
      intro k
      unfold odlTrainPoll
      rw [if_neg (h k)]
      exact ih (k + 1)

/-- If every attempt fails, the retry loop performs exactly `retries` calls. -/
theorem trainRetryLoop_all_fail (oracle : Nat → Nat → Nat)
    (h : ∀ a, odlTrain (oracle a) ≠ OpalResult.success) :
    ∀ retries attempt, 1 ≤ retries →
      trainRetryLoop oracle retries attempt = (attempt + retries, false) := by
  intro retries
  induction retries with
  | zero =>
      intro attempt hr
      omega
  | succ n ih =>
      intro attempt _
      unfold trainRetryLoop
      rw [if_neg (h attempt)]
      by_cases hn : n = 0
      · rw [if_pos hn]
        subst hn
        rfl
      · rw [if_neg hn]
        rw [ih (attempt + 1) (by omega)]
        have he : attempt + 1 + n = attempt + (n + 1) := by omega
        rw [he]

/-- The retry loop stops at the first successful attempt. -/
theorem trainRetryLoop_first_success (oracle : Nat → Nat → Nat) :
    ∀ k retries attempt, k < retries →
      (∀ j, j < k → odlTrain (oracle (attempt + j)) ≠ OpalResult.success) →
      odlTrain (oracle (attempt + k)) = OpalResult.success →
      trainRetryLoop oracle retries attempt = (attempt + k + 1, true) := by
  intro k
  induction k with
  | zero =>
      intro retries attempt hk _ hs
      cases retries with
      | zero => omega
      | succ n =>
          unfold trainRetryLoop
          rw [if_pos (by simpa using hs)]
  | succ k' ih =>
      intro retries attempt hk hall hs
      cases retries with
      | zero => omega
      | succ n =>
          unfold trainRetryLoop
          have h0 : odlTrain (oracle attempt) ≠ OpalResult.success := by
            simpa using hall 0 (by omega)
          rw [if_neg h0]
          have hn : n ≠ 0 := by omega
          rw [if_neg hn]
          have heq : attempt + (k' + 1) + 1 = attempt + 1 + k' + 1 := by omega
          rw [heq]
          refine ih n (attempt + 1) (by omega) ?_ ?_
          · intro j hj
            have he : attempt + 1 + j = attempt + (j + 1) := by omega
            rw [he]
            exact hall (j + 1) (by omega)
          · have he : attempt + 1 + k' = attempt + (k' + 1) := by omega
            rw [he]
            exact hs

/-- Claim C5: in default training mode, a brick whose ODL training state
never reaches 0x7 causes `npu2_opencapi_setup_device` to invoke `odl_train`
exactly 5 times, annotate the PHB device-tree node with status "error", and
return without registering the PHB; conversely, if attempt `k` (the first
successful one) returns Success, no further attempts are made and
transmission is enabled via `OTL_CONFIG2.TX_SEND_EN`. -/
theorem claim_C5_training_retries :
    ∀ oracle : Nat → Nat → Nat,
      ((∀ a p, getfield OB_ODL_STATUS_TRAINING_STATE_MACHINE (oracle a p) ≠ 7) →
        npu2OpencapiSetupTraining oracle =
          TrainingOutcome.mk 5 false false true false) ∧
      (∀ k, k < LINK_TRAINING_RETRIES →
        (∀ j, j < k → odlTrain (oracle j) ≠ OpalResult.success) →
        odlTrain (oracle k) = OpalResult.success →
        npu2OpencapiSetupTraining oracle =
          TrainingOutcome.mk (k + 1) true true false true) := by
  intro oracle
  constructor
  · intro h
    have hfail : ∀ a, odlTrain (oracle a) ≠ OpalResult.success := by
      intro a
      unfold odlTrain
      rw [odlTrainPoll_never (oracle a) (h a) 3001 0]
      intro hcon
      exact OpalResult.noConfusion hcon
    unfold npu2OpencapiSetupTraining
    rw [trainRetryLoop_all_fail oracle hfail LINK_TRAINING_RETRIES 0 (by decide)]
    rfl
  · intro k hk hall hs
    unfold npu2OpencapiSetupTraining
    rw [trainRetryLoop_first_success oracle k LINK_TRAINING_RETRIES 0 hk
      (by intro j hj; simpa using hall j hj) (by simpa using hs)]
    simp

/-- Claim C5 witness: with the status register always reading 0 (training
state never 0x7), the orchestrator performs exactly 5 training attempts,
annotates the node with "error" and registers no PHB. -/
theorem claim_C5_witness :
    npu2OpencapiSetupTraining (fun _ _ => 0) =
      TrainingOutcome.mk 5 false false true false :=
  (claim_C5_training_retries (fun _ _ => 0)).1 (fun _ _ => by decide)

/-- `fenceWrites` distributes over append. -/
theorem fenceWrites_append :
    ∀ a b : List NpcqEvent, fenceWrites (a ++ b) = fenceWrites a ++ fenceWrites b := by
  intro a b
  induction a with
  | nil => rfl
  | cons e rest ih =>
      cases e <;> simp [fenceWrites, ih]

/-- The fence status poll performs no fence-control writes. -/
theorem fencePoll_no_writes (field status : Nat) :
    ∀ polls, fenceWrites (fencePoll field status polls).2 = [] := by
  intro polls
  induction polls with
  | nil => rfl
  | cons v rest ih =>
      unfold fencePoll
      by_cases h : getfield field v = status
      · rw [if_pos h]
        rfl
      · rw [if_neg h]
        simpa [fenceWrites] using ih

/-- The fence status poll succeeds exactly when some read echoes the
requested status. -/
theorem fencePoll_success_iff (field status : Nat) :
    ∀ polls : List Nat, (fencePoll field status polls).1 = OpalResult.success ↔
      ∃ v ∈ polls, getfield field v = status := by
  intro polls
  induction polls with
  | nil => simp [fencePoll]
  | cons v rest ih =>
      unfold fencePoll
      by_cases h : getfield field v = status
      · simp [h]
      · rw [if_neg h]
        simpa [h] using ih

/-- The fence status poll returns either Success or HardwareError. -/
theorem fencePoll_result (field status : Nat) :
    ∀ polls, (fencePoll field status polls).1 = OpalResult.success ∨
      (fencePoll field status polls).1 = OpalResult.hardware := by
  intro polls
  induction polls with
  | nil => simp [fencePoll]
  | cons v rest ih =>
      unfold fencePoll
      by_cases h : getfield field v = status
      · simp [h]
      · rw [if_neg h]
        simpa using ih

/-- A successful fence status poll contains a read observing the requested
status. -/
theorem fencePoll_success_mem (field status : Nat) :
    ∀ polls, (fencePoll field status polls).1 = OpalResult.success →
      ∃ v, NpcqEvent.statusRd v ∈ (fencePoll field status polls).2 ∧
        getfield field v = status := by
  intro polls
  induction polls with
  | nil =>
      intro h
      exact absurd h (by simp [fencePoll])
  | cons v rest ih =>
      intro h
      unfold fencePoll at h ⊢
      by_cases hv : getfield field v = status
      · rw [if_pos hv]
        exact ⟨v, by simp, hv⟩
      · rw [if_neg hv] at h ⊢
        rcases ih (by simpa using h) with ⟨v', hm, hp⟩
        exact ⟨v', by simp [hm], hp⟩

/-- Claim C7: `set_fence_control` writes the requested 2-bit status into
`CQ_CTL.FENCE_CONTROL_0` or `_1` (selected by the brick's block) exactly
once, then polls `CQ_CTL_STATUS.BRK{0|1}_AM_FENCED` until it equals the
requested status (Success) or the deadline passes (HardwareError); and during
`brick_config` (`set_npcq_config`), provided each fence transition completes,
the sequence of values written to the brick's fence-control register is
exactly [01, 11, 10], with at least one read of CQ_CTL_STATUS observing the
newly requested value between each write and the next. -/
theorem claim_C7_fence_control :
    (∀ (block : Block) (status : Nat) (polls : List Nat), status < 4 →
      fenceWrites (setFenceControl block status polls).2 =
        [((if block = Block.OTL0 then FenceReg.FC0 else FenceReg.FC1),
          setfield NPU2_CQ_CTL_FENCE_CONTROL_REQUEST_FENCE 0 status)] ∧
      getfield NPU2_CQ_CTL_FENCE_CONTROL_REQUEST_FENCE
        (setfield NPU2_CQ_CTL_FENCE_CONTROL_REQUEST_FENCE 0 status) = status ∧
      ((setFenceControl block status polls).1 = OpalResult.success ↔
        ∃ v ∈ polls,
          getfield (if block = Block.OTL0 then NPU2_CQ_CTL_STATUS_BRK0_AM_FENCED
            else NPU2_CQ_CTL_STATUS_BRK1_AM_FENCED) v = status) ∧
      ((setFenceControl block status polls).1 = OpalResult.success ∨
        (setFenceControl block status polls).1 = OpalResult.hardware)) ∧
    (∀ (block : Block) (miscCfg0 datCfg0 : Nat) (smCfg : Nat → Nat)
        (polls1 polls2 polls3 : List Nat),
      (setNpcqConfig block miscCfg0 datCfg0 smCfg polls1 polls2 polls3).2.1 =
          OpalResult.success →
      (setNpcqConfig block miscCfg0 datCfg0 smCfg polls1 polls2 polls3).2.2.1 =
          OpalResult.success →
      (setNpcqConfig block miscCfg0 datCfg0 smCfg polls1 polls2 polls3).2.2.2 =
          OpalResult.success →
      fenceWrites
          (setNpcqConfig block miscCfg0 datCfg0 smCfg polls1 polls2 polls3).1 =
        [((if block = Block.OTL0 then FenceReg.FC0 else FenceReg.FC1),
          setfield NPU2_CQ_CTL_FENCE_CONTROL_REQUEST_FENCE 0 0b01),
         ((if block = Block.OTL0 then FenceReg.FC0 else FenceReg.FC1),
          setfield NPU2_CQ_CTL_FENCE_CONTROL_REQUEST_FENCE 0 0b11),
         ((if block = Block.OTL0 then FenceReg.FC0 else FenceReg.FC1),
          setfield NPU2_CQ_CTL_FENCE_CONTROL_REQUEST_FENCE 0 0b10)] ∧
      ∃ t1 t2 t3 t4,
        (setNpcqConfig block miscCfg0 datCfg0 smCfg polls1 polls2 polls3).1 =
          t1 ++ NpcqEvent.fenceWr
              (if block = Block.OTL0 then FenceReg.FC0 else FenceReg.FC1)
              (setfield NPU2_CQ_CTL_FENCE_CONTROL_REQUEST_FENCE 0 0b01) ::
            (t2 ++ NpcqEvent.fenceWr
                (if block = Block.OTL0 then FenceReg.FC0 else FenceReg.FC1)
                (setfield NPU2_CQ_CTL_FENCE_CONTROL_REQUEST_FENCE 0 0b11) ::
              (t3 ++ NpcqEvent.fenceWr
                  (if block = Block.OTL0 then FenceReg.FC0 else FenceReg.FC1)
                  (setfield NPU2_CQ_CTL_FENCE_CONTROL_REQUEST_FENCE 0 0b10) ::
                t4)) ∧
        fenceWrites t1 = [] ∧ fenceWrites t2 = [] ∧ fenceWrites t3 = [] ∧
        fenceWrites t4 = [] ∧
        (∃ v, NpcqEvent.statusRd v ∈ t2 ∧
          getfield (if block = Block.OTL0 then NPU2_CQ_CTL_STATUS_BRK0_AM_FENCED
            else NPU2_CQ_CTL_STATUS_BRK1_AM_FENCED) v = 0b01) ∧
        (∃ v, NpcqEvent.statusRd v ∈ t3 ∧
          getfield (if block = Block.OTL0 then NPU2_CQ_CTL_STATUS_BRK0_AM_FENCED
            else NPU2_CQ_CTL_STATUS_BRK1_AM_FENCED) v = 0b11)) := by
  constructor
  · intro block status polls hst
    refine ⟨?_, ?_, ?_, ?_⟩
    · simp [setFenceControl, fenceWrites, fencePoll_no_writes]
    · exact getfield_setfield 0 status 62 2
        NPU2_CQ_CTL_FENCE_CONTROL_REQUEST_FENCE (by omega) (by norm_num)
        (by decide) (by decide)
    · simpa [setFenceControl] using
        fencePoll_success_iff
          (if block = Block.OTL0 then NPU2_CQ_CTL_STATUS_BRK0_AM_FENCED
            else NPU2_CQ_CTL_STATUS_BRK1_AM_FENCED) status polls
    · simpa [setFenceControl] using
        fencePoll_result
          (if block = Block.OTL0 then NPU2_CQ_CTL_STATUS_BRK0_AM_FENCED
            else NPU2_CQ_CTL_STATUS_BRK1_AM_FENCED) status polls
  · intro block miscCfg0 datCfg0 smCfg polls1 polls2 polls3 h1 h2 h3
    cases block
    case OTL0 =>
      have hp1 : (fencePoll NPU2_CQ_CTL_STATUS_BRK0_AM_FENCED 0b01 polls1).1 =
          OpalResult.success := by
        simpa [setNpcqConfig, setFenceControl] using h1
      have hp2 : (fencePoll NPU2_CQ_CTL_STATUS_BRK0_AM_FENCED 0b11 polls2).1 =
          OpalResult.success := by
        simpa [setNpcqConfig, setFenceControl] using h2
      rcases fencePoll_success_mem NPU2_CQ_CTL_STATUS_BRK0_AM_FENCED 0b01 polls1
        hp1 with ⟨v1, hv1m, hv1⟩
      rcases fencePoll_success_mem NPU2_CQ_CTL_STATUS_BRK0_AM_FENCED 0b11 polls2
        hp2 with ⟨v2, hv2m, hv2⟩
      constructor
      · simp [setNpcqConfig, setFenceControl, fenceWrites, fenceWrites_append,
          fencePoll_no_writes]
      · refine ⟨[NpcqEvent.otlCfg0Wr NPU2_OTL_CONFIG0_EN],
          (fencePoll NPU2_CQ_CTL_STATUS_BRK0_AM_FENCED 0b01 polls1).2 ++
            [NpcqEvent.miscCfgRd miscCfg0,
             NpcqEvent.miscCfgWr
               ((miscCfg0 ||| NPU2_CQ_CTL_MISC_CFG_CONFIG_OCAPI_MODE) |||
                 NPU2_CQ_CTL_MISC_CFG_CONFIG_OTL0_ENABLE)],
          (fencePoll NPU2_CQ_CTL_STATUS_BRK0_AM_FENCED 0b11 polls2).2,
          (fencePoll NPU2_CQ_CTL_STATUS_BRK0_AM_FENCED 0b10 polls3).2 ++
            (NpcqEvent.datCfgRd datCfg0 ::
              NpcqEvent.datCfgWr
                (datCfg0 ||| NPU2_CQ_DAT_MISC_CFG_CONFIG_OCAPI_MODE) ::
              (List.range 4).flatMap (fun b =>
                [NpcqEvent.smCfgRd b (smCfg b),
                 NpcqEvent.smCfgWr b
                   (smCfg b ||| NPU2_CQ_SM_MISC_CFG0_CONFIG_OCAPI_MODE)])),
          ?_, ?_, ?_, ?_, ?_, ?_, ?_⟩
        · simp [setNpcqConfig, setFenceControl, List.append_assoc]
        · rfl
        · rw [fenceWrites_append, fencePoll_no_writes]
          rfl
        · exact fencePoll_no_writes _ _ _
        · rw [fenceWrites_append, fencePoll_no_writes]
          rfl
        · exact ⟨v1, List.mem_append_left _ hv1m, by simpa using hv1⟩
        · exact ⟨v2, hv2m, by simpa using hv2⟩
    case OTL1 =>
      have hp1 : (fencePoll NPU2_CQ_CTL_STATUS_BRK1_AM_FENCED 0b01 polls1).1 =
          OpalResult.success := by
        simpa [setNpcqConfig, setFenceControl] using h1
      have hp2 : (fencePoll NPU2_CQ_CTL_STATUS_BRK1_AM_FENCED 0b11 polls2).1 =
          OpalResult.success := by
        simpa [setNpcqConfig, setFenceControl] using h2
      rcases fencePoll_success_mem NPU2_CQ_CTL_STATUS_BRK1_AM_FENCED 0b01 polls1
        hp1 with ⟨v1, hv1m, hv1⟩
      rcases fencePoll_success_mem NPU2_CQ_CTL_STATUS_BRK1_AM_FENCED 0b11 polls2
        hp2 with ⟨v2, hv2m, hv2⟩
      constructor
      · simp [setNpcqConfig, setFenceControl, fenceWrites, fenceWrites_append,
          fencePoll_no_writes]
      · refine ⟨[NpcqEvent.otlCfg0Wr NPU2_OTL_CONFIG0_EN],
          (fencePoll NPU2_CQ_CTL_STATUS_BRK1_AM_FENCED 0b01 polls1).2 ++
            [NpcqEvent.miscCfgRd miscCfg0,
             NpcqEvent.miscCfgWr
               ((miscCfg0 ||| NPU2_CQ_CTL_MISC_CFG_CONFIG_OCAPI_MODE) |||
                 NPU2_CQ_CTL_MISC_CFG_CONFIG_OTL1_ENABLE)],
          (fencePoll NPU2_CQ_CTL_STATUS_BRK1_AM_FENCED 0b11 polls2).2,
          (fencePoll NPU2_CQ_CTL_STATUS_BRK1_AM_FENCED 0b10 polls3).2 ++
            (NpcqEvent.datCfgRd datCfg0 ::
              NpcqEvent.datCfgWr
                (datCfg0 ||| NPU2_CQ_DAT_MISC_CFG_CONFIG_OCAPI_MODE) ::
              (List.range 4).flatMap (fun b =>
                [NpcqEvent.smCfgRd b (smCfg b),
                 NpcqEvent.smCfgWr b
                   (smCfg b ||| NPU2_CQ_SM_MISC_CFG0_CONFIG_OCAPI_MODE)])),
          ?_, ?_, ?_, ?_, ?_, ?_, ?_⟩
        · simp [setNpcqConfig, setFenceControl, List.append_assoc]
        · rfl
        · rw [fenceWrites_append, fencePoll_no_writes]
          rfl
        · exact fencePoll_no_writes _ _ _
        · rw [fenceWrites_append, fencePoll_no_writes]
          rfl
        · exact ⟨v1, List.mem_append_left _ hv1m, by simpa using hv1⟩
        · exact ⟨v2, hv2m, by simpa using hv2⟩

/-- Claim C7 witness: with CQ_CTL_STATUS echoing each requested fence value
at the first poll, `set_fence_control` writes its status once, and
`set_npcq_config` writes exactly [01, 11, 10] to brick 0's fence register. -/
theorem claim_C7_witness :
    fenceWrites (setFenceControl Block.OTL0 0b01
        [setfield NPU2_CQ_CTL_STATUS_BRK0_AM_FENCED 0 0b01]).2 =
      [((if Block.OTL0 = Block.OTL0 then FenceReg.FC0 else FenceReg.FC1),
        setfield NPU2_CQ_CTL_FENCE_CONTROL_REQUEST_FENCE 0 0b01)] ∧
    fenceWrites (setNpcqConfig Block.OTL0 0 0 (fun _ => 0)
        [setfield NPU2_CQ_CTL_STATUS_BRK0_AM_FENCED 0 0b01]
        [setfield NPU2_CQ_CTL_STATUS_BRK0_AM_FENCED 0 0b11]
        [setfield NPU2_CQ_CTL_STATUS_BRK0_AM_FENCED 0 0b10]).1 =
      [((if Block.OTL0 = Block.OTL0 then FenceReg.FC0 else FenceReg.FC1),
        setfield NPU2_CQ_CTL_FENCE_CONTROL_REQUEST_FENCE 0 0b01),
       ((if Block.OTL0 = Block.OTL0 then FenceReg.FC0 else FenceReg.FC1),
        setfield NPU2_CQ_CTL_FENCE_CONTROL_REQUEST_FENCE 0 0b11),
       ((if Block.OTL0 = Block.OTL0 then FenceReg.FC0 else FenceReg.FC1),
        setfield NPU2_CQ_CTL_FENCE_CONTROL_REQUEST_FENCE 0 0b10)] :=
  ⟨(claim_C7_fence_control.1 Block.OTL0 0b01
      [setfield NPU2_CQ_CTL_STATUS_BRK0_AM_FENCED 0 0b01] (by norm_num)).1,
   (claim_C7_fence_control.2 Block.OTL0 0 0 (fun _ => 0)
      [setfield NPU2_CQ_CTL_STATUS_BRK0_AM_FENCED 0 0b01]
      [setfield NPU2_CQ_CTL_STATUS_BRK0_AM_FENCED 0 0b11]
      [setfield NPU2_CQ_CTL_STATUS_BRK0_AM_FENCED 0 0b10]
      (by decide) (by decide) (by decide)).1⟩
